import Mathlib

/-!
# Verification of `prepare_class.py`

A shallow embedding of the daily classroom provisioning script.  The script
duplicates template files in a cloud drive, creates a linked assignment for
each copy, schedules the assignments for 08:00, deletes the prior-day
artifacts, and persists the identifiers of what it created.

Modelling conventions:

* A Python `datetime` is `PyDateTime`: an absolute day number (days since a
  fixed Monday, so `day % 7` is `datetime.weekday()` with Monday = 0) plus a
  time-of-day split into seconds since midnight and a microsecond part.
  `datetime.time` comparison is lexicographic on that pair, which `timeLt`
  mirrors; `replace(hour, minute, second)` sets the second count and keeps the
  microsecond part, which the final step of `get_assignment_date` mirrors.
* The two Google services are a behaviour oracle `Remote`: for each remote
  operation it says what the service would answer.  A `none`/`false` answer
  stands for an `HttpError` raised by `execute()`.
* Every remote call a run performs is logged, in order, as a `RemoteCall`
  value that also records the outcome, so that frame conditions ("no delete
  was issued") and net resource counts are statements about the log.
* `copy_drive_file` and `add_assignment` catch `HttpError`, write the error
  file and return the integer `0`; since real identifiers are strings and
  `0 == someString` is `False` in Python, the sentinel is modelled as
  `Option.none` and a returned identifier as `some id`.
* `clean_yesterday` does not catch `HttpError`; a failed deletion is modelled
  as the boolean "raised" component of its result, which propagates out of
  `prepare_tomorrow` (result `returned = none`: the run ends in an unhandled
  exception rather than a return value).
* The pickle file `data/yesterday.pickle` is a token stream (`PTok`); the
  store as seen by `prepare_tomorrow` is `Option (List (String × String))`
  (`none` = file absent), each pair being `(assignmentId, driveFileId)` in
  the order the script serialises them.
-/

namespace PrepareClass

def EXIT_SUCCESS : Int := 0

def EXIT_FAILURE : Int := 1

/-- Time of day: seconds since midnight plus the microsecond component.
Python compares `datetime.time` values lexicographically on
(hour, minute, second, microsecond), which collapses to lexicographic
comparison on (seconds-since-midnight, microsecond). -/
structure PyTime where
  sec : Nat
  usec : Nat
deriving DecidableEq

/-- A `datetime`: absolute day count since a fixed Monday plus time of day.
`day % 7` is Python `weekday()` (Monday = 0); `timedelta(days = k)` is
`day := day + k`. -/
structure PyDateTime where
  day : Nat
  time : PyTime
deriving DecidableEq

/-- `CLASS_START = datetime.time(8, 00, 00)`. -/
def CLASS_START : PyTime := ⟨8 * 3600, 0⟩

/-- Strict `<` on Python `time` values (lexicographic). -/
def timeLt (a b : PyTime) : Bool :=
  a.sec < b.sec || (a.sec == b.sec && a.usec < b.usec)

/-- `get_assignment_date` from the source: advance one day when
`weekday() < 4 and CLASS_START < now.time()`, else advance to Monday when
`4 < weekday or weekday == 4 and CLASS_START < now.time()`, else keep the
date; finally `replace(hour = 8, minute = 0, second = 0)` (the microsecond
component is untouched by `replace`). -/
def get_assignment_date (now : PyDateTime) : PyDateTime :=
  let weekday := now.day % 7
  let advanced :=
    if weekday < 4 ∧ timeLt CLASS_START now.time = true then
      { now with day := now.day + 1 }
    else if 4 < weekday ∨ (weekday = 4 ∧ timeLt CLASS_START now.time = true) then
      { now with day := now.day + (1 + (6 - weekday)) }
    else now
  { advanced with time := { sec := CLASS_START.sec, usec := advanced.time.usec } }

/-- `strftime("%A")` on a weekday index (Monday = 0). -/
def weekdayName : Nat → String
  | 0 => "Monday"
  | 1 => "Tuesday"
  | 2 => "Wednesday"
  | 3 => "Thursday"
  | 4 => "Friday"
  | 5 => "Saturday"
  | _ => "Sunday"

/-- The body passed to `courses().courseWork().create` by `add_assignment`.
`scheduledTime` is rendered with `strftime("%Y-%m-%dT%H:%M:%S-04:00")`,
which keeps the day and the second count and drops microseconds, so the
blob stores `scheduledDay` and `scheduledSec`. -/
structure AssignBlob where
  title : String
  materialFileId : String
  materialTitle : String
  workType : String
  state : String
  assigneeMode : String
  scheduledDay : Nat
  scheduledSec : Nat
deriving DecidableEq

/-- Builds the assignment body exactly as `add_assignment` does. -/
def mkAssignBlob (assignment_name : String) (tomorrow_date : PyDateTime)
    (drivefile_id : String) : AssignBlob :=
  { title := assignment_name
    materialFileId := drivefile_id
    materialTitle := assignment_name
    workType := "ASSIGNMENT"
    state := "DRAFT"
    assigneeMode := "ALL_STUDENTS"
    scheduledDay := tomorrow_date.day
    scheduledSec := tomorrow_date.time.sec }

/-- One remote API call as it appears in the call log of the run, together with
its outcome (`none`/`false` = the service raised `HttpError`). -/
inductive RemoteCall where
  | copyFile (templateId newName : String) (result : Option String)
  | createAssignment (courseId : String) (blob : AssignBlob) (result : Option String)
  | deleteAssignment (courseId assignmentId : String) (ok : Bool)
  | deleteFile (fileId : String) (ok : Bool)
  | listCourses (ok : Bool)
deriving DecidableEq

/-- Behaviour oracle for the two services: what each remote operation would
answer if issued.  `none` / `false` means the call raises `HttpError`. -/
structure Remote where
  copyFile : String → String → Option String
  createAssignment : AssignBlob → Option String
  deleteAssignment : String → Bool
  deleteFile : String → Bool
  listCourses : Bool

/-- `copy_drive_file`: issue the copy; on `HttpError` record the exception
(error file written) and return the `0` sentinel (`none`).
Result: (returned id, calls issued, error file written). -/
def copy_drive_file (r : Remote) (daily_assignment template_file_id : String) :
    Option String × List RemoteCall × Bool :=
  match r.copyFile template_file_id daily_assignment with
  | some fid => (some fid, [RemoteCall.copyFile template_file_id daily_assignment (some fid)], false)
  | none => (none, [RemoteCall.copyFile template_file_id daily_assignment none], true)

/-- `add_assignment`: build the blob, issue the create; on `HttpError` record
the exception and return the `0` sentinel (`none`). -/
def add_assignment (r : Remote) (courseId assignment_name : String)
    (tomorrow_date : PyDateTime) (drivefile_id : String) :
    Option String × List RemoteCall × Bool :=
  let blob := mkAssignBlob assignment_name tomorrow_date drivefile_id
  match r.createAssignment blob with
  | some aid => (some aid, [RemoteCall.createAssignment courseId blob (some aid)], false)
  | none => (none, [RemoteCall.createAssignment courseId blob none], true)

/-- `clean_yesterday`: for each `(assignment_id, drivefile_id)` pair delete
the assignment then the file.  No exception handling: the first failing
deletion raises, which ends the loop.  Result: (calls issued, raised?). -/
def clean_yesterday (r : Remote) (courseId : String) :
    List (String × String) → List RemoteCall × Bool
  | [] => ([], false)
  | (assignment_id, drivefile_id) :: rest =>
    if r.deleteAssignment assignment_id then
      if r.deleteFile drivefile_id then
        let tail := clean_yesterday r courseId rest
        (RemoteCall.deleteAssignment courseId assignment_id true ::
          RemoteCall.deleteFile drivefile_id true :: tail.1, tail.2)
      else
        ([RemoteCall.deleteAssignment courseId assignment_id true,
          RemoteCall.deleteFile drivefile_id false], true)
    else
      ([RemoteCall.deleteAssignment courseId assignment_id false], true)

/-- Loop body of `perform_copy_and_create`, driven to exhaustion by the list
comprehension in `prepare_tomorrow`: copy the file, stop on failure; create
the assignment, stop on failure; otherwise yield `(assignment_id,
drivefile_id)` and continue.  Result: (yielded pairs, calls, error file). -/
def perform_copy_and_create_go (r : Remote) (courseId day : String)
    (dt_tomorrow : PyDateTime) :
    List (String × String) → List (String × String) × List RemoteCall × Bool
  | [] => ([], [], false)
  | (assignment_name, template_file_id) :: rest =>
    let daily_assignment := assignment_name ++ " - " ++ day
    let copied := copy_drive_file r daily_assignment template_file_id
    match copied.1 with
    | none => ([], copied.2.1, copied.2.2)
    | some drivefile_id =>
      let created := add_assignment r courseId daily_assignment dt_tomorrow drivefile_id
      match created.1 with
      | none => ([], copied.2.1 ++ created.2.1, created.2.2)
      | some assignment_id =>
        let tail := perform_copy_and_create_go r courseId day dt_tomorrow rest
        ((assignment_id, drivefile_id) :: tail.1,
          copied.2.1 ++ created.2.1 ++ tail.2.1, tail.2.2)

/-- `perform_copy_and_create`: compute the date for tomorrow and weekday name, then
run the provisioning loop over the configured templates. -/
def perform_copy_and_create (r : Remote) (courseId : String) (now : PyDateTime)
    (templates : List (String × String)) :
    List (String × String) × List RemoteCall × Bool :=
  let dt_tomorrow := get_assignment_date now
  let day := weekdayName (dt_tomorrow.day % 7)
  perform_copy_and_create_go r courseId day dt_tomorrow templates

/-- The world a run starts from: whether each credential build yields a
service (`build_classroom_service` / `build_drive_service` non-`None`), and
the contents of `data/yesterday.pickle` (`none` = file absent). -/
structure World where
  classCreds : Bool
  driveCreds : Bool
  store : Option (List (String × String))
deriving DecidableEq

/-- Outcome of `prepare_tomorrow`: the returned boolean (`none` = an
unhandled exception escaped), the remote calls issued, the final store
contents, and whether the error-detail file was written. -/
structure RunResult where
  returned : Option Bool
  calls : List RemoteCall
  store : Option (List (String × String))
  errorFile : Bool
deriving DecidableEq

/-- `prepare_tomorrow`: build both services (return `False` if either is
`None`); if the yesterday file exists, clean it up (an `HttpError` there
propagates); then run the provisioning loop, unconditionally overwrite the
yesterday file with whatever pairs were yielded, and return `True`. -/
def prepare_tomorrow (r : Remote) (courseId : String)
    (templates : List (String × String)) (now : PyDateTime) (w : World) : RunResult :=
  if !w.classCreds || !w.driveCreds then
    { returned := some false, calls := [], store := w.store, errorFile := false }
  else
    let cleaned :=
      match w.store with
      | some rec => clean_yesterday r courseId rec
      | none => ([], false)
    if cleaned.2 then
      { returned := none, calls := cleaned.1, store := w.store, errorFile := false }
    else
      let made := perform_copy_and_create r courseId now templates
      { returned := some true
        calls := cleaned.1 ++ made.2.1
        store := some made.1
        errorFile := made.2.2 }

/-- `list_course_ids`: build the classroom service (`False` if `None`), issue
the course listing; on `HttpError` record the exception and return `False`.
Result: (returned boolean, calls, error file written). -/
def list_course_ids (r : Remote) (classCreds : Bool) :
    Bool × List RemoteCall × Bool :=
  if !classCreds then (false, [], false)
  else if r.listCourses then (true, [RemoteCall.listCourses true], false)
  else (false, [RemoteCall.listCourses false], true)

/-- Outcome of `main`: the exit status (`none` = an unhandled exception
escaped `main`), the calls issued, the final store and the error file. -/
structure MainResult where
  exit : Option Int
  calls : List RemoteCall
  store : Option (List (String × String))
  errorFile : Bool
deriving DecidableEq

/-- `main`: with `--courses` run the listing, otherwise run
`prepare_tomorrow`; exit with `EXIT_SUCCESS` on a `True` return and
`EXIT_FAILURE` on a `False` return. -/
def main (r : Remote) (courseId : String) (templates : List (String × String))
    (now : PyDateTime) (coursesFlag : Bool) (w : World) : MainResult :=
  if coursesFlag then
    let res := list_course_ids r w.classCreds
    { exit := some (if res.1 then EXIT_SUCCESS else EXIT_FAILURE)
      calls := res.2.1
      store := w.store
      errorFile := res.2.2 }
  else
    let res := prepare_tomorrow r courseId templates now w
    { exit := res.returned.map (fun b => if b then EXIT_SUCCESS else EXIT_FAILURE)
      calls := res.calls
      store := res.store
      errorFile := res.errorFile }

/-! ### Derived views of the call log -/

/-- File ids successfully created by `files().copy` calls in a log. -/
def filesCreated (calls : List RemoteCall) : List String :=
  calls.filterMap fun c =>
    match c with
    | RemoteCall.copyFile _ _ (some fid) => some fid
    | _ => none

/-- File ids successfully deleted by `files().delete` calls in a log. -/
def filesDeleted (calls : List RemoteCall) : List String :=
  calls.filterMap fun c =>
    match c with
    | RemoteCall.deleteFile fid true => some fid
    | _ => none

/-- Assignment ids successfully created in a log. -/
def assignmentsCreated (calls : List RemoteCall) : List String :=
  calls.filterMap fun c =>
    match c with
    | RemoteCall.createAssignment _ _ (some aid) => some aid
    | _ => none

/-- Assignment ids successfully deleted in a log. -/
def assignmentsDeleted (calls : List RemoteCall) : List String :=
  calls.filterMap fun c =>
    match c with
    | RemoteCall.deleteAssignment _ aid true => some aid
    | _ => none

/-- Files created by the run and never deleted by it: the net new files. -/
def netNewFiles (calls : List RemoteCall) : List String :=
  (filesCreated calls).filter fun fid => !(filesDeleted calls).contains fid

/-- Assignments created by the run and never deleted by it. -/
def netNewAssignments (calls : List RemoteCall) : List String :=
  (assignmentsCreated calls).filter fun aid => !(assignmentsDeleted calls).contains aid

/-- Whether a logged call is a deletion of either resource kind. -/
def isDeleteCall : RemoteCall → Bool
  | RemoteCall.deleteAssignment _ _ _ => true
  | RemoteCall.deleteFile _ _ => true
  | _ => false

/-- Whether Phase A of a run from world `w` would end in an exception. -/
def cleanup_raises (r : Remote) (courseId : String) (w : World) : Bool :=
  match w.store with
  | some rec => (clean_yesterday r courseId rec).2
  | none => false

/-! ### The pickle file

`pickle.dump` / `pickle.load` on a list of string pairs: modelled as a
self-describing token stream, length-prefixed at the list and string
levels, as the pickle wire format is.  `save_record` is `pickle.dump` to
`data/yesterday.pickle`; `load_record` is `pickle.load` from it. -/

/-- One token of the serialised stream: a length marker or a character. -/
inductive PTok where
  | nat (n : Nat)
  | ch (c : Char)
deriving DecidableEq

/-- Serialise one string: its length, then its characters. -/
def pickleString (s : String) : List PTok :=
  PTok.nat s.data.length :: s.data.map PTok.ch

/-- Read `n` character tokens from the stream. -/
def unpickleChars : Nat → List PTok → Option (List Char × List PTok)
  | 0, ts => some ([], ts)
  | n + 1, PTok.ch c :: ts =>
    match unpickleChars n ts with
    | some (cs, rest) => some (c :: cs, rest)
    | none => none
  | _ + 1, _ => none

/-- Read one serialised string from the stream. -/
def unpickleString : List PTok → Option (String × List PTok)
  | PTok.nat n :: ts =>
    match unpickleChars n ts with
    | some (cs, rest) => some (⟨cs⟩, rest)
    | none => none
  | _ => none

/-- Serialise one `(assignmentId, driveFileId)` pair. -/
def picklePair (p : String × String) : List PTok :=
  pickleString p.1 ++ pickleString p.2

/-- Read one serialised pair from the stream. -/
def unpicklePair (ts : List PTok) : Option ((String × String) × List PTok) :=
  match unpickleString ts with
  | some (a, ts1) =>
    match unpickleString ts1 with
    | some (b, ts2) => some ((a, b), ts2)
    | none => none
  | none => none

/-- Serialise a whole record: its length, then the serialised pairs. -/
def pickleRecord (rec : List (String × String)) : List PTok :=
  PTok.nat rec.length :: rec.foldr (fun p acc => picklePair p ++ acc) []

/-- Read `n` serialised pairs from the stream. -/
def unpickleList : Nat → List PTok → Option (List (String × String) × List PTok)
  | 0, ts => some ([], ts)
  | n + 1, ts =>
    match unpicklePair ts with
    | some (p, ts1) =>
      match unpickleList n ts1 with
      | some (ps, rest) => some (p :: ps, rest)
      | none => none
    | none => none

/-- Deserialise a whole record; fails on a malformed or trailing stream. -/
def unpickleRecord (ts : List PTok) : Option (List (String × String)) :=
  match ts with
  | PTok.nat n :: rest =>
    match unpickleList n rest with
    | some (ps, []) => some ps
    | _ => none
  | _ => none

/-- `save(record)`: the byte stream written to the record file. -/
def save_record (rec : List (String × String)) : List PTok :=
  pickleRecord rec

/-- `load()`: parse the record file contents back into a record. -/
def load_record (file : List PTok) : Option (List (String × String)) :=
  unpickleRecord file

/-- Whether a logged call is the course listing. -/
def isListCall : RemoteCall → Bool
  | RemoteCall.listCourses _ => true
  | _ => false

/-! ### Helper lemmas -/

lemma unpickleChars_pickle (cs : List Char) (rest : List PTok) :
    unpickleChars cs.length (cs.map PTok.ch ++ rest) = some (cs, rest) := by
  induction cs with
  | nil => rfl
  | cons c cs ih => simp [unpickleChars, ih]

lemma unpickleString_pickle (s : String) (rest : List PTok) :
    unpickleString (pickleString s ++ rest) = some (s, rest) := by
  obtain ⟨data⟩ := s
  simp [pickleString, unpickleString, unpickleChars_pickle]

lemma unpicklePair_pickle (p : String × String) (rest : List PTok) :
    unpicklePair (picklePair p ++ rest) = some (p, rest) := by
  obtain ⟨a, b⟩ := p
  simp [picklePair, unpicklePair, List.append_assoc, unpickleString_pickle]

lemma unpickleList_pickle (l : List (String × String)) (rest : List PTok) :
    unpickleList l.length
      ((l.foldr (fun p acc => picklePair p ++ acc) []) ++ rest) = some (l, rest) := by
  induction l with
  | nil => simp [unpickleList]
  | cons p ps ih =>
    simp [unpickleList, List.append_assoc, unpicklePair_pickle, ih]

lemma perform_go_no_delete (r : Remote) (courseId day : String) (dt : PyDateTime)
    (templates : List (String × String)) :
    ((perform_copy_and_create_go r courseId day dt templates).2.1).filter isDeleteCall
      = [] := by
  induction templates with
  | nil => rfl
  | cons t rest ih =>
    obtain ⟨assignment_name, template_file_id⟩ := t
    simp only [perform_copy_and_create_go, copy_drive_file, add_assignment]
    cases hcp : r.copyFile template_file_id (assignment_name ++ " - " ++ day) with
    | none => rfl
    | some fid =>
      cases hcr :
          r.createAssignment (mkAssignBlob (assignment_name ++ " - " ++ day) dt fid) with
      | none => simp [hcr, isDeleteCall]
      | some aid => simp [hcr, List.filter_append, isDeleteCall, ih]

/-! ### Concrete instances used to witness and refute claims -/

/-- A remote where every call succeeds, copies of templates `A`, `B` get ids
`f1`, `f2` and the two created assignments get ids `a1`, `a2`. -/
def scenarioRemote : Remote :=
  { copyFile := fun tid _ => if tid = "A" then some "f1" else some "f2"
    createAssignment := fun blob => if blob.materialFileId = "f1" then some "a1" else some "a2"
    deleteAssignment := fun _ => true
    deleteFile := fun _ => true
    listCourses := true }

/-- The two configured templates of the end-to-end scenario. -/
def scenarioTemplates : List (String × String) := [("Worksheet", "A"), ("Quiz", "B")]

/-- Thursday 07:00 (day 3 of the week, 07:00:00.000000). -/
def scenarioNow : PyDateTime := ⟨3, ⟨7 * 3600, 0⟩⟩

/-- A remote where copies succeed with id `f1` but every assignment
creation raises `HttpError`. -/
def cxRemoteCreateFails : Remote :=
  { copyFile := fun _ _ => some "f1"
    createAssignment := fun _ => none
    deleteAssignment := fun _ => true
    deleteFile := fun _ => true
    listCourses := true }

/-- The provisioning run in which assignment creation for the single
template fails: world has both credentials and no prior record. -/
def cxRunB : RunResult :=
  prepare_tomorrow cxRemoteCreateFails "COURSE" [("T", "tid")] ⟨0, ⟨0, 0⟩⟩
    ⟨true, true, none⟩

/-- The same failing run observed through `main` (default mode). -/
def cxMainB : MainResult :=
  main cxRemoteCreateFails "COURSE" [("T", "tid")] ⟨0, ⟨0, 0⟩⟩ false
    ⟨true, true, none⟩

/-- A remote where deleting assignment `a2` raises `HttpError` and every
other deletion succeeds. -/
def cxRemoteDelA2Fails : Remote :=
  { copyFile := fun _ _ => some "f"
    createAssignment := fun _ => some "a"
    deleteAssignment := fun aid => aid != "a2"
    deleteFile := fun _ => true
    listCourses := true }

/-- A remote whose every call fails; used where the calls never happen. -/
def idleRemote : Remote :=
  { copyFile := fun _ _ => none
    createAssignment := fun _ => none
    deleteAssignment := fun _ => false
    deleteFile := fun _ => false
    listCourses := false }

/-! ### Claims -/

/-- C1 (counterexample): with both credentials, no prior record and one
template whose assignment creation fails, the run leaves the copied file
`f1` behind (no rollback deletion is issued), overwrites the record store
(absent before, `some []` after), and still reports no failure.  This
refutes the claim that a Phase B failure leaves zero net new resources and
the record store unchanged. -/
theorem C1_claim_counterexample :
    netNewFiles cxRunB.calls = ["f1"] ∧
    cxRunB.store = some [] ∧
    cxRunB.store ≠ (⟨true, true, none⟩ : World).store ∧
    cxRunB.returned = some true := by decide

/-- C1 (amended): if provisioning fails partway through Phase B, no rollback
is performed — the run never issues any deletion call (so every file and
assignment created before the failure remains remotely), the record store is
overwritten with exactly the pairs completed before the failure, and
`prepare_tomorrow` still returns `True`. -/
theorem C1_no_rollback (r : Remote) (courseId : String)
    (templates : List (String × String)) (now : PyDateTime) (w : World)
    (hc : w.classCreds = true) (hd : w.driveCreds = true) (hs : w.store = none) :
    (prepare_tomorrow r courseId templates now w).returned = some true ∧
    (prepare_tomorrow r courseId templates now w).store =
      some (perform_copy_and_create r courseId now templates).1 ∧
    ((prepare_tomorrow r courseId templates now w).calls).filter isDeleteCall = [] := by
  simp [prepare_tomorrow, hc, hd, hs, perform_copy_and_create, perform_go_no_delete]

/-- C1 (witness): the amended no-rollback theorem applied to the concrete
failing run. -/
theorem C1_no_rollback_witness :
    cxRunB.returned = some true ∧
    cxRunB.store =
      some (perform_copy_and_create cxRemoteCreateFails "COURSE" ⟨0, ⟨0, 0⟩⟩
        [("T", "tid")]).1 ∧
    (cxRunB.calls).filter isDeleteCall = [] :=
  C1_no_rollback cxRemoteCreateFails "COURSE" [("T", "tid")] ⟨0, ⟨0, 0⟩⟩
    ⟨true, true, none⟩ rfl rfl rfl

/-- C2 (counterexample): with a three-pair record whose second assignment
deletion fails, the cleanup raises out of the loop and pair 3 is never
touched (neither its assignment nor its file is deleted), refuting the
best-effort-per-entry claim. -/
theorem C2_claim_counterexample :
    (clean_yesterday cxRemoteDelA2Fails "COURSE"
        [("a1", "f1"), ("a2", "f2"), ("a3", "f3")]).2 = true ∧
    RemoteCall.deleteAssignment "COURSE" "a3" true ∉
      (clean_yesterday cxRemoteDelA2Fails "COURSE"
        [("a1", "f1"), ("a2", "f2"), ("a3", "f3")]).1 ∧
    RemoteCall.deleteFile "f3" true ∉
      (clean_yesterday cxRemoteDelA2Fails "COURSE"
        [("a1", "f1"), ("a2", "f2"), ("a3", "f3")]).1 := by decide

/-- C2 (amended): Phase A cleanup is not best-effort: when the first pair
cleans up fully and deleting the assignment of the second pair fails, the
loop stops right there — the exact call log is the two deletions of pair 1 plus
the one failed deletion — and the error raises out of the cleanup loop. -/
theorem C2_cleanup_aborts (r : Remote) (courseId a1 f1 a2 f2 a3 f3 : String)
    (h1 : r.deleteAssignment a1 = true) (h2 : r.deleteFile f1 = true)
    (h3 : r.deleteAssignment a2 = false) :
    clean_yesterday r courseId [(a1, f1), (a2, f2), (a3, f3)] =
      ([RemoteCall.deleteAssignment courseId a1 true, RemoteCall.deleteFile f1 true,
        RemoteCall.deleteAssignment courseId a2 false], true) := by
  simp [clean_yesterday, h1, h2, h3]

/-- C2 (witness): the amended abort theorem at the concrete three-pair
record with the failing second deletion. -/
theorem C2_cleanup_aborts_witness :
    clean_yesterday cxRemoteDelA2Fails "COURSE"
        [("a1", "f1"), ("a2", "f2"), ("a3", "f3")] =
      ([RemoteCall.deleteAssignment "COURSE" "a1" true, RemoteCall.deleteFile "f1" true,
        RemoteCall.deleteAssignment "COURSE" "a2" false], true) :=
  C2_cleanup_aborts cxRemoteDelA2Fails "COURSE" "a1" "f1" "a2" "f2" "a3" "f3"
    (by decide) (by decide) (by decide)

/-- C3 (counterexample): in the run where the assignment creation fails
remotely (the error-detail file is written), the exit status is still the
success code, refuting "on any failure the exit status is the failure
code". -/
theorem C3_claim_counterexample :
    cxMainB.errorFile = true ∧
    cxMainB.exit = some EXIT_SUCCESS ∧
    cxMainB.exit ≠ some EXIT_FAILURE := by decide

/-- C3 (amended): the exit status is the success code exactly when, in
course-listing mode, the classroom service is built and the listing call
succeeds, or, in default mode, both services are built and Phase A cleanup
does not raise; remote failures during Phase B still yield the success
code, and a Phase A failure ends the run in an unhandled exception rather
than a returned status. -/
theorem C3_exit_status (r : Remote) (courseId : String)
    (templates : List (String × String)) (now : PyDateTime) (coursesFlag : Bool)
    (w : World) :
    (main r courseId templates now coursesFlag w).exit = some EXIT_SUCCESS ↔
      ((coursesFlag = true ∧ w.classCreds = true ∧ r.listCourses = true) ∨
        (coursesFlag = false ∧ w.classCreds = true ∧ w.driveCreds = true ∧
          cleanup_raises r courseId w = false)) := by
  obtain ⟨cc, dc, st⟩ := w
  cases coursesFlag <;> cases cc <;> cases dc <;>
    simp [main, list_course_ids, prepare_tomorrow, cleanup_raises,
      EXIT_SUCCESS, EXIT_FAILURE]
  · cases st with
    | none => simp
    | some rec => cases h : (clean_yesterday r courseId rec).2 <;> simp [h]
  · cases hr : r.listCourses <;> simp [hr]
  · cases hr : r.listCourses <;> simp [hr]

/-- C4 (counterexample): on Thursday 09:00 the calculator advances one day
(to Friday), although Thursday is outside Monday–Wednesday, refuting the
claimed branch characterisation. -/
theorem C4_claim_counterexample :
    get_assignment_date ⟨3, ⟨9 * 3600, 0⟩⟩ = ⟨4, ⟨8 * 3600, 0⟩⟩ ∧
    (get_assignment_date ⟨3, ⟨9 * 3600, 0⟩⟩).day ≠ 3 := by decide

/-- C4 (amended): the returned time of day always has second count 08:00:00;
on Monday–Friday the calculator advances exactly one day precisely when the
weekday is Monday–Thursday and the time is past 08:00, and keeps the
current date precisely when the time is not past 08:00. -/
theorem C4_schedule_boundary (now : PyDateTime) :
    (get_assignment_date now).time.sec = 8 * 3600 ∧
    (now.day % 7 ≤ 4 →
      (((get_assignment_date now).day = now.day + 1 ↔
          (now.day % 7 < 4 ∧ timeLt CLASS_START now.time = true)) ∧
        ((get_assignment_date now).day = now.day ↔
          timeLt CLASS_START now.time = false))) := by
  have hsec : (get_assignment_date now).time.sec = 8 * 3600 := by
    simp [get_assignment_date, CLASS_START]
  have hday : (get_assignment_date now).day =
      (if now.day % 7 < 4 ∧ timeLt CLASS_START now.time = true then now.day + 1
        else if 4 < now.day % 7 ∨ (now.day % 7 = 4 ∧ timeLt CLASS_START now.time = true)
          then now.day + (1 + (6 - now.day % 7))
        else now.day) := by
    simp only [get_assignment_date]
    split_ifs <;> rfl
  refine ⟨hsec, fun h => ?_⟩
  rw [hday]
  split_ifs with h1 h2
  · obtain ⟨h1a, h1b⟩ := h1
    refine ⟨by simp [h1a, h1b], ?_⟩
    simp only [h1b]
    constructor
    · intro he; omega
    · intro he; simp at he
  · have h4 : now.day % 7 = 4 := by
      rcases h2 with h2 | h2
      · omega
      · exact h2.1
    have ht : timeLt CLASS_START now.time = true := by
      rcases h2 with h2 | h2
      · omega
      · exact h2.2
    constructor
    · constructor
      · intro he; rw [h4] at he; omega
      · rintro ⟨hlt, _⟩; omega
    · constructor
      · intro he; rw [h4] at he; omega
      · intro he; rw [ht] at he; simp at he
  · have ht : timeLt CLASS_START now.time = false := by
      rcases Nat.lt_or_ge (now.day % 7) 4 with hw | hw
      · cases htl : timeLt CLASS_START now.time
        · rfl
        · exact absurd ⟨hw, htl⟩ h1
      · have h4 : now.day % 7 = 4 := by omega
        cases htl : timeLt CLASS_START now.time
        · rfl
        · exact absurd (Or.inr ⟨h4, htl⟩) h2
    constructor
    · simp only [ht]
      constructor
      · intro he; omega
      · rintro ⟨_, hf⟩; simp at hf
    · simp [ht]

/-- C4 (witness): the boundary theorem instantiated at Thursday 09:00, the
implication hypothesis discharged concretely. -/
theorem C4_schedule_boundary_witness :
    (get_assignment_date ⟨3, ⟨9 * 3600, 0⟩⟩).time.sec = 8 * 3600 ∧
    (((get_assignment_date ⟨3, ⟨9 * 3600, 0⟩⟩).day = 3 + 1 ↔
        (3 % 7 < 4 ∧ timeLt CLASS_START ⟨9 * 3600, 0⟩ = true)) ∧
      ((get_assignment_date ⟨3, ⟨9 * 3600, 0⟩⟩).day = 3 ↔
        timeLt CLASS_START ⟨9 * 3600, 0⟩ = false)) :=
  ⟨(C4_schedule_boundary ⟨3, ⟨9 * 3600, 0⟩⟩).1,
    (C4_schedule_boundary ⟨3, ⟨9 * 3600, 0⟩⟩).2 (by decide)⟩

/-- C5: in the end-to-end scenario (templates Worksheet/A and Quiz/B,
current time Thursday 07:00, copies returning f1, f2 and creations
returning a1, a2), the persisted record is the ordered pairs (a1, f1),
(a2, f2) — the ResourcePairs f1/a1 and f2/a2 — the assignment titles are
"Worksheet - Thursday" and "Quiz - Thursday", and both assignments are
scheduled for the same Thursday (day 3) at 08:00:00. -/
theorem C5_end_to_end :
    prepare_tomorrow scenarioRemote "COURSE" scenarioTemplates scenarioNow
        ⟨true, true, none⟩ =
      { returned := some true
        calls :=
          [RemoteCall.copyFile "A" "Worksheet - Thursday" (some "f1"),
            RemoteCall.createAssignment "COURSE"
              { title := "Worksheet - Thursday", materialFileId := "f1"
                materialTitle := "Worksheet - Thursday", workType := "ASSIGNMENT"
                state := "DRAFT", assigneeMode := "ALL_STUDENTS"
                scheduledDay := 3, scheduledSec := 8 * 3600 } (some "a1"),
            RemoteCall.copyFile "B" "Quiz - Thursday" (some "f2"),
            RemoteCall.createAssignment "COURSE"
              { title := "Quiz - Thursday", materialFileId := "f2"
                materialTitle := "Quiz - Thursday", workType := "ASSIGNMENT"
                state := "DRAFT", assigneeMode := "ALL_STUDENTS"
                scheduledDay := 3, scheduledSec := 8 * 3600 } (some "a2")]
        store := some [("a1", "f1"), ("a2", "f2")]
        errorFile := false } := by decide

/-- C6: any Saturday or Sunday timestamp yields the following Monday at
08:00:00, the advance being 1 + (6 - weekday) days. -/
theorem C6_weekend_rollover (now : PyDateTime) (h : 5 ≤ now.day % 7) :
    (get_assignment_date now).day = now.day + (1 + (6 - now.day % 7)) ∧
    (get_assignment_date now).day % 7 = 0 ∧
    now.day < (get_assignment_date now).day ∧
    (get_assignment_date now).day ≤ now.day + 2 ∧
    (get_assignment_date now).time.sec = 8 * 3600 := by
  have hm : now.day % 7 < 7 := Nat.mod_lt _ (by norm_num)
  have hday : (get_assignment_date now).day = now.day + (1 + (6 - now.day % 7)) := by
    simp only [get_assignment_date]
    split_ifs with h1 h2
    · exact absurd h1.1 (by omega)
    · rfl
    · exact absurd (Or.inl (by omega)) h2
  have hsec : (get_assignment_date now).time.sec = 8 * 3600 := by
    simp [get_assignment_date, CLASS_START]
  refine ⟨hday, ?_, ?_, ?_, hsec⟩ <;> rw [hday] <;> omega

/-- C6 (witness): the weekend rollover theorem at Saturday 00:00. -/
theorem C6_weekend_rollover_witness :
    (get_assignment_date ⟨5, ⟨0, 0⟩⟩).day = 5 + (1 + (6 - 5 % 7)) ∧
    (get_assignment_date ⟨5, ⟨0, 0⟩⟩).day % 7 = 0 ∧
    5 < (get_assignment_date ⟨5, ⟨0, 0⟩⟩).day ∧
    (get_assignment_date ⟨5, ⟨0, 0⟩⟩).day ≤ 5 + 2 ∧
    (get_assignment_date ⟨5, ⟨0, 0⟩⟩).time.sec = 8 * 3600 :=
  C6_weekend_rollover ⟨5, ⟨0, 0⟩⟩ (by decide)

/-- C7: when either credential build yields no service, `prepare_tomorrow`
returns `False` having made no remote call, with the record store untouched
and no error-detail file written. -/
theorem C7_auth_failure (r : Remote) (courseId : String)
    (templates : List (String × String)) (now : PyDateTime) (w : World)
    (h : w.classCreds = false ∨ w.driveCreds = false) :
    prepare_tomorrow r courseId templates now w =
      { returned := some false, calls := [], store := w.store, errorFile := false } := by
  rcases h with h | h <;> simp [prepare_tomorrow, h]

/-- C7 (witness): the auth-failure theorem at a world whose classroom
credential build fails. -/
theorem C7_auth_failure_witness :
    prepare_tomorrow idleRemote "COURSE" [("T", "tid")] ⟨0, ⟨0, 0⟩⟩
        ⟨false, true, none⟩ =
      { returned := some false, calls := [], store := none, errorFile := false } :=
  C7_auth_failure idleRemote "COURSE" [("T", "tid")] ⟨0, ⟨0, 0⟩⟩
    ⟨false, true, none⟩ (Or.inl rfl)

/-- C8: saving any record to the store and loading it back yields the same
record — the serialise/deserialise pair is the identity on records. -/
theorem C8_record_round_trip (rec : List (String × String)) :
    load_record (save_record rec) = some rec := by
  have h := unpickleList_pickle rec []
  rw [List.append_nil] at h
  simp [load_record, save_record, pickleRecord, unpickleRecord, h]

/-- C10: in course-listing mode the record store is left unchanged and the
only remote call ever issued is the course listing itself (one call when
the service is built, none otherwise) — in particular no file is copied or
deleted and no assignment is created or deleted. -/
theorem C10_courses_frame (r : Remote) (courseId : String)
    (templates : List (String × String)) (now : PyDateTime) (w : World) :
    (main r courseId templates now true w).store = w.store ∧
    (main r courseId templates now true w).calls =
      (if w.classCreds = true then [RemoteCall.listCourses r.listCourses] else []) ∧
    ((main r courseId templates now true w).calls).all isListCall = true := by
  obtain ⟨cc, dc, st⟩ := w
  cases cc <;> cases hr : r.listCourses <;>
    simp [main, list_course_ids, isListCall, hr]

/-- C9: at exactly 08:00:00.000000 on any Monday–Friday the calculator keeps
the current date (both comparisons against 08:00 are strict), returning the
same day at 08:00:00. -/
theorem C9_exact_eight_keeps_date (now : PyDateTime) (h1 : now.day % 7 ≤ 4)
    (h2 : now.time = ⟨8 * 3600, 0⟩) :
    (get_assignment_date now).day = now.day ∧
    (get_assignment_date now).time = ⟨8 * 3600, 0⟩ := by
  have ht : timeLt CLASS_START now.time = false := by rw [h2]; rfl
  simp only [get_assignment_date]
  split_ifs with ha hb
  · rw [ht] at ha
    exact absurd ha.2 (by simp)
  · rcases hb with hb | hb
    · omega
    · rw [ht] at hb
      simp at hb
  · exact ⟨rfl, by simp [h2, CLASS_START]⟩

/-- C9 (witness): the exact-08:00 theorem at Wednesday 08:00:00.000000. -/
theorem C9_exact_eight_keeps_date_witness :
    (get_assignment_date ⟨2, ⟨8 * 3600, 0⟩⟩).day = 2 ∧
    (get_assignment_date ⟨2, ⟨8 * 3600, 0⟩⟩).time = ⟨8 * 3600, 0⟩ :=
  C9_exact_eight_keeps_date ⟨2, ⟨8 * 3600, 0⟩⟩ (by decide) rfl

end PrepareClass
